import Mathlib

/-!
Verification of the RAG ingestion pipeline of the voice_agent_api repository
(`src/rag/rag/`): content classification, embedding generation with fallback,
vector storage, per-unit error handling, and questionnaire generation.

Python floats are modelled as exact rationals (`ℚ`); NaN/inf are not
representable in that model, so the numpy finiteness checks are identically
true.  External library functions (hash digests, float square root, the
remote embedding/OCR/LLM services, the filesystem) are passed in as explicit
oracle parameters.  All repository logic is translated statement by
statement from the Python source.
-/

namespace VoiceAgent

/-- The single-quote character (codepoint 39) as a string, used when
building filter expressions, since the Python source interpolates quoted
values into f-strings. -/
def sq : String := String.singleton (Char.ofNat 39)

/-- Python `str.lower()` (ASCII case folding, the only case relevant to the
classifier keywords). -/
def pyLower (s : String) : String := String.mk (s.toList.map Char.toLower)

/-- Python `str.strip()`: drop leading and trailing whitespace. -/
def pyStrip (s : String) : String :=
  String.mk (((s.toList.dropWhile Char.isWhitespace).reverse.dropWhile
    Char.isWhitespace).reverse)

/-- Does the character list `pat` occur at the start of `s`? -/
def listStarts : List Char → List Char → Bool
  | [], _ => true
  | _ :: _, [] => false
  | a :: as, b :: bs => a == b && listStarts as bs

/-- Does `pat` occur as a contiguous sublist of `s`?  (Python `pat in s`.) -/
def listSub (pat : List Char) : List Char → Bool
  | [] => listStarts pat []
  | b :: bs => listStarts pat (b :: bs) || listSub pat bs

/-- Python `pat in s` for strings: substring containment. -/
def strSub (pat s : String) : Bool := listSub pat.toList s.toList

/-- Number of occurrences of character `c` in `s` (Python `s.count(c)` for a
single-character needle). -/
def charCount (c : Char) (s : String) : Nat := s.toList.count c

/-- Python `c in s` for a single character. -/
def charIn (c : Char) (s : String) : Bool := s.toList.contains c

/-- One step of the regex `[a-zA-Z]\s*=`: after an ASCII letter, skip
whitespace and require `=`. -/
def wsThenEq : List Char → Bool
  | [] => false
  | c :: cs => if c == '=' then true else if c.isWhitespace then wsThenEq cs else false

/-- Python `re.search(r"[a-zA-Z][0-9]|[0-9][a-zA-Z]|[a-zA-Z]\s*=", text)`:
some position starts a letter-digit adjacency, a digit-letter adjacency, or a
letter followed by optional whitespace and `=`.
(`document_parser.py` line 261.) -/
def eqAdjacency : List Char → Bool
  | [] => false
  | [_] => false
  | a :: b :: rest =>
    (a.isAlpha && b.isDigit) || (a.isDigit && b.isAlpha) ||
    (a.isAlpha && wsThenEq (b :: rest)) || eqAdjacency (b :: rest)

/-- The list of mathematical symbols tested by the equation heuristic
(`document_parser.py` line 258). -/
def equationPatterns : List String :=
  ["=", "+", "-", "*", "/", "∫", "∑", "∏", "√", "^", "≤", "≥", "≠", "≈"]

/-- Table keyword markers (`document_parser.py` line 254). -/
def tableKeywords : List String := ["table:", "table-", "tab:", "tab-"]

/-- Equation keyword markers (`document_parser.py` line 265). -/
def equationKeywords : List String := ["equation:", "eq:", "formula:", "theorem:"]

/-- Model of `DocumentParser._classify_content_type` (`document_parser.py` lines
232-272, the only definition of this method in the class body).  The method
body ends in `pass` after the keyword checks — the `return "text"` line that
the docstring promises sits stranded inside a later duplicated
`parse_directory` body — so the Python function returns `None` (here `none`)
whenever no table or equation marker fires. -/
def classify_content_type (text : String) : Option String :=
  let text_lower := pyStrip (pyLower text)
  if charIn '|' text && charCount '|' text > 3 then
    some "table"
  else if tableKeywords.any (fun k => strSub k text_lower) then
    some "table"
  else if (equationPatterns.any (fun p => strSub p text)) && text.length < 300
          && eqAdjacency text.toList then
    some "equation"
  else if equationKeywords.any (fun k => strSub k text_lower) then
    some "equation"
  else
    none

/-! ## Embedding layer (`embedding.py`, `nomic_embedding.py`)

Floats are rationals; the float square root used by `np.linalg.norm` is an
oracle `sqrtFn : ℚ → ℚ` applied to the sum of squares (for the real square
root, `norm > 0 ↔ sumSq > 0`, which is how the norm-positivity branches are
stated).  The remote Ollama embedding service is an oracle
`svc : String → Except String (List ℚ)`; an `Except.error` models the
request raising after the tenacity retries are exhausted (the retry
decorator re-issues the same deterministic call, so it does not change the
value-level semantics). -/

/-- Sum of squares of a vector; `np.linalg.norm v = Real.sqrt (sumSq v)`. -/
def sumSq (v : List ℚ) : ℚ := (v.map (fun x => x * x)).sum

/-- Model of `np.isfinite(v).all()`: identically true in the rational model, where
NaN/inf are unrepresentable. -/
def allFinite (v : List ℚ) : Bool := v.all (fun _ => true)

/-- Model of `np.allclose(v, 0)` with numpy defaults: the relative term vanishes
against 0, leaving `|x| ≤ atol = 1e-8` for every entry. -/
def allCloseZero (v : List ℚ) : Bool := v.all (fun x => |x| ≤ 1 / 100000000)

/-- Model of `BaseEmbeddingGenerator.validate_embedding` (`embedding.py` lines
51-84).  `none` models a `None` argument; a present value is a numpy float
vector by type, so the `isinstance` check cannot fire in the model. -/
def validate_embedding (min_dimensions : Nat) (embedding : Option (List ℚ)) : Bool :=
  match embedding with
  | none => false
  | some v =>
    if v.length < min_dimensions then false
    else if !allFinite v then false
    else if allCloseZero v then false
    else true

/-- Model of `BaseEmbeddingGenerator.filter_embeddings` (`embedding.py` lines
86-106): keep only the embeddings that pass `validate_embedding`, in order;
the dropped ones are merely logged. -/
def filter_embeddings (min_dimensions : Nat) (embeddings : List (List ℚ)) : List (List ℚ) :=
  embeddings.filter (fun e => validate_embedding min_dimensions (some e))

/-- Structural worker for `chunksOf`; the fuel argument dominates the list
length, so the `0, _ :: _` case is unreachable at the call site. -/
def chunksOfAux (n : Nat) : Nat → List α → List (List α)
  | _, [] => []
  | 0, l => [l]
  | fuel + 1, x :: xs => (x :: xs).take n :: chunksOfAux n fuel ((x :: xs).drop n)

/-- Python `range(0, len(l), n)` batch slicing: split `l` into consecutive
chunks of size `n` (the last one possibly shorter).  `n = 0` cannot occur at
the call sites (`BATCH_SIZE = 8`, `100`). -/
def chunksOf (n : Nat) (l : List α) : List (List α) :=
  if n = 0 then [] else chunksOfAux n l.length l

/-- Model of `NomicEmbeddingGenerator._generate_single_embedding` (`nomic_embedding.py`
lines 302-373) after the HTTP exchange: on success the service vector is
L2-normalized when its norm is positive; failures (timeout, client error,
bad status) surface as exceptions once retries are exhausted. -/
def generate_single_embedding (sqrtFn : ℚ → ℚ) (svc : String → Except String (List ℚ))
    (text : String) : Except String (List ℚ) :=
  match svc text with
  | Except.error e => Except.error e
  | Except.ok data =>
    let n2 := sumSq data
    Except.ok (if 0 < n2 then data.map (fun x => x / sqrtFn n2) else data)

/-- Per-slot result inside `_batch_generate_embeddings`: an exception from
`asyncio.gather(..., return_exceptions=True)` or a non-array/empty result is
replaced by a zero-vector of `min_dimensions` entries (`nomic_embedding.py`
lines 396-409). -/
def batch_slot (sqrtFn : ℚ → ℚ) (svc : String → Except String (List ℚ))
    (min_dimensions : Nat) (text : String) : List ℚ :=
  match generate_single_embedding sqrtFn svc text with
  | Except.error _ => List.replicate min_dimensions 0
  | Except.ok v => if v.length = 0 then List.replicate min_dimensions 0 else v

/-- Model of `NomicEmbeddingGenerator._batch_generate_embeddings` (`nomic_embedding.py`
lines 375-419): texts are processed in chunks of `BATCH_SIZE = 8` and the
per-chunk results are appended in order. -/
def batch_generate_embeddings (sqrtFn : ℚ → ℚ) (svc : String → Except String (List ℚ))
    (min_dimensions : Nat) (texts : List String) : List (List ℚ) :=
  (chunksOf 8 texts).flatMap (fun batch => batch.map (batch_slot sqrtFn svc min_dimensions))

/-- Model of `NomicEmbeddingGenerator.generate_embeddings` (`nomic_embedding.py` lines
223-300), for string contents.  Stages: input sanitation (`zip` with the
content types, empty/non-text slots become `""`), batch generation, padding
back to `len(contents)` with zero-vectors, then `filter_embeddings` over the
first `len(contents)` slots.  The event loop is assumed to run the batch
coroutine (the `except` fallback path is only reachable through event-loop
environment failures, which the model excludes). -/
def generate_embeddings (sqrtFn : ℚ → ℚ) (svc : String → Except String (List ℚ))
    (min_dimensions : Nat) (contents : List String)
    (content_types : Option (List String)) : List (List ℚ) :=
  let cts := content_types.getD (List.replicate contents.length "text")
  let valid_contents := (contents.zip cts).map (fun p =>
    if p.2 ≠ "text" then ""
    else if pyStrip p.1 ≠ "" then pyStrip p.1
    else "")
  if valid_contents.isEmpty then
    List.replicate contents.length (List.replicate min_dimensions 0)
  else
    let embeddings := batch_generate_embeddings sqrtFn svc min_dimensions valid_contents
    let padded := embeddings ++
      List.replicate (contents.length - embeddings.length) (List.replicate min_dimensions 0)
    filter_embeddings min_dimensions (padded.take contents.length)

/-- The order-preserving, zero-padded raw embedding list that
`generate_embeddings` hands to `filter_embeddings` (the value of
`embeddings[: len(contents)]` at `nomic_embedding.py` line 295). -/
def padded_embeddings (sqrtFn : ℚ → ℚ) (svc : String → Except String (List ℚ))
    (min_dimensions : Nat) (contents : List String)
    (content_types : Option (List String)) : List (List ℚ) :=
  let cts := content_types.getD (List.replicate contents.length "text")
  let valid_contents := (contents.zip cts).map (fun p =>
    if p.2 ≠ "text" then ""
    else if pyStrip p.1 ≠ "" then pyStrip p.1
    else "")
  let embeddings := batch_generate_embeddings sqrtFn svc min_dimensions valid_contents
  (embeddings ++
    List.replicate (contents.length - embeddings.length) (List.replicate min_dimensions 0)).take
    contents.length

/-- Character-distribution features inside
`NomicEmbeddingGenerator._create_hash_embedding` (`nomic_embedding.py` lines
543-550): `np.bincount([ord(c) % 256 for c in text[:100]], minlength=256) / 256`,
truncated to `min(128, min_dimensions)` entries. -/
def bincountCharFeatures (min_dimensions : Nat) (text : String) : List ℚ :=
  let first100 := text.toList.take 100
  let char_counts := (List.range 256).map
    (fun k => ((first100.countP (fun c => c.toNat % 256 == k) : ℕ) : ℚ) / 256)
  char_counts.take (min 128 min_dimensions)

/-- The in-place blending loop of `_create_hash_embedding`
(`nomic_embedding.py` lines 551-556): for the first
`min(len(embedding), len(char_features))` indices,
`emb[i] = 0.7 * emb[i] + 0.3 * cf[i]`. -/
def mixCharFeatures (min_dimensions : Nat) (text : String) (emb : List ℚ) : List ℚ :=
  if 0 < text.length then
    let cf := bincountCharFeatures min_dimensions text
    if 0 < cf.length then
      (emb.zipWith (fun e c => (7 / 10) * e + (3 / 10) * c) cf) ++ emb.drop cf.length
    else emb
  else emb

/-- The dimension-filling step of `_create_hash_embedding`
(`nomic_embedding.py` lines 533-538): take the first `min_dimensions` hash
values and, if that is short, extend once more by
`hashes[:min_dimensions - len(embedding_values)]` (the source comment says
"cycling if needed", but the `extend` runs exactly once). -/
def extendHashVals (min_dimensions : Nat) (hashVals : List ℚ) : List ℚ :=
  if (hashVals.take min_dimensions).length < min_dimensions then
    hashVals.take min_dimensions ++
      hashVals.take (min_dimensions - (hashVals.take min_dimensions).length)
  else hashVals.take min_dimensions

/-- The final normalization of `_create_hash_embedding` (`nomic_embedding.py`
lines 561-571): divide by the L2 norm when positive, else fall back to the
constant vector `np.full(min_dimensions, 1/sqrt(min_dimensions))`.  For the
real square root, `norm > 0 ↔ sumSq > 0`. -/
def normalizeHash (sqrtFn : ℚ → ℚ) (min_dimensions : Nat) (embedding : List ℚ) : List ℚ :=
  if 0 < sumSq embedding then embedding.map (fun x => x / sqrtFn (sumSq embedding))
  else List.replicate min_dimensions (1 / sqrtFn ((min_dimensions : ℚ)))

/-- Model of `NomicEmbeddingGenerator._create_hash_embedding` (`nomic_embedding.py`
lines 514-576).  `hashVals` is the oracle for the concatenated
byte-pair values of the md5, sha1 and sha256 hex digests of the text
(`float(int(hex[i:i+2], 16)) / 255` for each digest); the digest lengths fix
`hashVals.length = 68` (16 + 20 + 32 byte pairs).  `np.nan_to_num` is the
identity in the rational model. -/
def create_hash_embedding (sqrtFn : ℚ → ℚ) (min_dimensions : Nat)
    (hashVals : List ℚ) (text : String) : List ℚ :=
  if pyStrip text = "" then List.replicate min_dimensions 0
  else
    normalizeHash sqrtFn min_dimensions
      (mixCharFeatures min_dimensions text (extendHashVals min_dimensions hashVals))

end VoiceAgent

namespace VoiceAgent

end VoiceAgent

namespace VoiceAgent

/-! ## Parser output and processor pipeline (`document_parser.py`,
`processor.py`)

A parsed content item is a Python dict; optional keys are modelled as
`Option`/defaulted fields.  The classifier may return `None` (see
`classify_content_type`), so the `type` field is an `Option String`.
The per-type modal processors (`rag/processors/*`, §4.2 of the spec) are a
separate component, abstracted here as the `enhance` oracle producing either
an enhanced unit, a falsy result (`Option.none` inside `Except.ok`), or an
exception. -/

/-- One parsed content item (the dicts built in `document_parser.py`). -/
structure ContentItem where
  type : Option String := none
  text : String := ""
  data : Option String := none
  mime_type : Option String := none
  page : Nat := 1
  source_file : String := ""
  confidence : ℚ := 1
  from_ocr : Bool := false
  is_component : Bool := false
  is_page_image : Bool := false
deriving DecidableEq

/-- An enhanced unit (the dict a modal processor returns, as consumed and
extended by `RAGProcessor._process_content_item`).  `text_content = none`
models the key being absent. -/
structure EnhancedUnit where
  type : Option String := none
  text : String := ""
  enhanced_text : String := ""
  text_content : Option String := none
  source_file : String := ""
  page_id : Nat := 1
  embedding : Option (List ℚ) := none
  m_is_page_image : Bool := false
  m_is_component : Bool := false
  m_from_ocr : Bool := false
deriving DecidableEq

/-- Python `s[:n]` for strings. -/
def pyTake (s : String) (n : Nat) : String := String.mk (s.toList.take n)

/-- Model of `RAGProcessor._generate_embedding` (`processor.py` lines 226-250): embed
`item.get("text") or item.get("enhanced_text")`; empty text returns `None`;
otherwise the first entry of `generate_embeddings([content_text])` if that
list is non-empty, else `None`.  Exceptions inside the generator are caught
and also produce `None` (the model generator is total). -/
def generate_embedding_proc (sqrtFn : ℚ → ℚ) (svc : String → Except String (List ℚ))
    (md : Nat) (item : EnhancedUnit) : Option (List ℚ) :=
  let content_text := if item.text ≠ "" then item.text else item.enhanced_text
  if content_text = "" then none
  else
    match (generate_embeddings sqrtFn svc md [content_text] none).head? with
    | some e => some e
    | none => none

/-- The enhanced-unit bookkeeping of `_process_content_item` after a
successful embedding (`processor.py` lines 196-218): attach the embedding,
copy `source_file` and `page` from the raw item, default `text_content` when
the key is absent, and record the provenance flags in metadata. -/
def attach_embedding (emb : List ℚ) (item : ContentItem) (enhanced : EnhancedUnit) :
    EnhancedUnit :=
  let e1 := { enhanced with
    embedding := some emb
    source_file := item.source_file
    page_id := item.page }
  let e2 :=
    if e1.text_content = none then
      { e1 with text_content := some (
          if e1.enhanced_text ≠ "" then e1.enhanced_text
          else if e1.text ≠ "" then e1.text
          else "Image from " ++ e1.source_file ++ ", page " ++ toString e1.page_id) }
    else e1
  { e2 with
    m_is_page_image := e2.m_is_page_image || item.is_page_image
    m_is_component := e2.m_is_component || item.is_component
    m_from_ocr := e2.m_from_ocr || item.from_ocr }

/-- Model of `RAGProcessor._process_content_item` (`processor.py` lines 169-224): the
modal-processor call (`enhance` oracle) may raise (caught, returns `None`)
or return a falsy result (returns `None`); a `None` from the embedding step
returns `None`; otherwise the enhanced unit is completed and returned. -/
def process_content_item (enhance : ContentItem → Except String (Option EnhancedUnit))
    (sqrtFn : ℚ → ℚ) (svc : String → Except String (List ℚ)) (md : Nat)
    (item : ContentItem) : Option EnhancedUnit :=
  match enhance item with
  | Except.error _ => none
  | Except.ok none => none
  | Except.ok (some enhanced) =>
    match generate_embedding_proc sqrtFn svc md enhanced with
    | none => none
    | some emb => some (attach_embedding emb item enhanced)

/-- The per-unit loop of `RAGProcessor.process_file` (`processor.py` lines
150-157): every unit is processed independently; a falsy or failed unit is
skipped and the loop continues with the remaining units. -/
def process_file_units (enhance : ContentItem → Except String (Option EnhancedUnit))
    (sqrtFn : ℚ → ℚ) (svc : String → Except String (List ℚ)) (md : Nat) :
    List ContentItem → List EnhancedUnit
  | [] => []
  | item :: rest =>
    match process_content_item enhance sqrtFn svc md item with
    | some e => e :: process_file_units enhance sqrtFn svc md rest
    | none => process_file_units enhance sqrtFn svc md rest

/-- The metadata dict attached by `_process_content_item`
(`processor.py` lines 206-215), as string pairs in insertion order. -/
def metaPairs (item : EnhancedUnit) : List (String × String) :=
  (if item.m_is_page_image then [("is_page_image", "True")] else []) ++
  (if item.m_is_component then [("is_component", "True")] else []) ++
  (if item.m_from_ocr then [("from_ocr", "True")] else [])

/-- One row of the `embeddings_data` list that
`RAGProcessor._store_content_batch` prepares for `insert_batch`
(`processor.py` lines 260-278). -/
structure PreparedRow where
  embedding : List ℚ
  text_content : String
  content_type : String
  source_file : String
  page_id : String
  metadata : List (String × String)
  processing_timestamp : Option String
deriving DecidableEq

/-- The per-item preparation step of `_store_content_batch`
(`processor.py` lines 262-278): only items carrying an `embedding` key are
kept; the stored text falls back through
`text_content` / `enhanced_text` / `text` / a placeholder, truncated to
65,535 characters; `page_id` is stringified. -/
def prepare_row (item : EnhancedUnit) : Option PreparedRow :=
  match item.embedding with
  | none => none
  | some emb =>
    let text := 
      if (item.text_content.getD "") ≠ "" then item.text_content.getD ""
      else if item.enhanced_text ≠ "" then item.enhanced_text
      else if item.text ≠ "" then item.text
      else "Content from " ++ item.source_file ++ ", page " ++ toString item.page_id
    some {
      embedding := emb
      text_content := pyTake text 65535
      content_type := item.type.getD "generic"
      source_file := item.source_file
      page_id := toString item.page_id
      metadata := metaPairs item
      processing_timestamp := none }

/-- Model of `RAGProcessor._store_content_batch` (`processor.py` lines 257-284).  The
whole body sits in a `try` whose `except` clause only logs: an exception
raised by `insert_batch` (modelled by the `insertB` oracle returning
`Except.error`) is swallowed, and the method returns normally either way. -/
def store_content_batch (insertB : List PreparedRow → Except String (List String))
    (items : List EnhancedUnit) : Except String Unit :=
  match (if (items.filterMap prepare_row).isEmpty then Except.ok []
         else insertB (items.filterMap prepare_row)) with
  | Except.ok _ => Except.ok ()
  | Except.error _ => Except.ok ()

/-- Model of `RAGProcessor.process_file` after a successful parse (`processor.py`
lines 144-167): empty parses return `[]`; otherwise the units are processed,
the batch is stored when non-empty, and the processed list is returned.  If
`_store_content_batch` propagated an exception it would surface here
(there is no surrounding `try`), hence the explicit `Except.error` branch. -/
def process_file_after_parse (enhance : ContentItem → Except String (Option EnhancedUnit))
    (sqrtFn : ℚ → ℚ) (svc : String → Except String (List ℚ)) (md : Nat)
    (insertB : List PreparedRow → Except String (List String))
    (raw : List ContentItem) : Except String (List EnhancedUnit) :=
  if raw.isEmpty then Except.ok []
  else
    let processed := process_file_units enhance sqrtFn svc md raw
    match (if processed.isEmpty then Except.ok () else store_content_batch insertB processed) with
    | Except.error e => Except.error e
    | Except.ok _ => Except.ok processed

/-! ## Vector store (`storage.py`) -/

/-- Python `sep.join(l)`. -/
def joinSep (sep : String) : List String → String
  | [] => ""
  | [x] => x
  | x :: y :: rest => x ++ sep ++ joinSep sep (y :: rest)

/-- The filter-expression construction of
`MilvusStorage.search_similar_content` (`storage.py` lines 399-408).
`content_types = none` or `some []` and `source_filter = none` or `some ""`
are falsy in Python.  When both filters are present the source builds the
f-string `f"({expr}) if {expr} else {source_expr}"` — a Python conditional
expression captured literally as text — rather than an AND combination. -/
def build_search_filter (content_types : Option (List String))
    (source_filter : Option String) : Option String :=
  let cts := content_types.getD []
  let expr : Option String :=
    if cts.isEmpty then none
    else some (joinSep " OR " (cts.map (fun ct => "content_type == " ++ sq ++ ct ++ sq)))
  match source_filter with
  | none => expr
  | some sf =>
    if sf = "" then expr
    else
      match expr with
      | some e => some ("(" ++ e ++ ") if " ++ e ++ " else " ++
          ("source_file == " ++ sq ++ sf ++ sq))
      | none => some ("source_file == " ++ sq ++ sf ++ sq)

/-- A value stored in a Milvus entity dict: a string-like field or the
float vector. -/
inductive EntityValue where
  | str : String → EntityValue
  | vec : List ℚ → EntityValue
deriving DecidableEq

/-- Python dict assignment `d[k] = v` on a string-valued dict rendered as an
insertion-ordered association list. -/
def setKey (m : List (String × String)) (k v : String) : List (String × String) :=
  if m.any (fun p => p.1 == k) then m.map (fun p => if p.1 == k then (k, v) else p)
  else m ++ [(k, v)]

/-- The per-row entity dict built by `MilvusStorage.insert_batch`
(`storage.py` lines 345-369): fresh uuid, embedding, text truncated to
`MAX_TEXT_LENGTH = 65535`, source_file, page_id, serialized metadata, and
the timestamp.  The `"content_type"` line of the dict literal is commented
out in the source (line 363), so that key is absent from the inserted row.
`dumps` is the `json.dumps` oracle and `now` the `time.strftime` value; a
present-but-empty timestamp string is falsy in Python and so also replaced
by `now`. -/
def entityOf (dumps : List (String × String) → String) (now : String)
    (uuid : String) (item : PreparedRow) : List (String × EntityValue) :=
  let ts := match item.processing_timestamp with
    | some t => if t = "" then now else t
    | none => now
  [("id", EntityValue.str uuid),
   ("embedding", EntityValue.vec item.embedding),
   ("text_content", EntityValue.str (pyTake item.text_content 65535)),
   ("source_file", EntityValue.str item.source_file),
   ("page_id", EntityValue.str item.page_id),
   ("metadata", EntityValue.str (dumps (setKey item.metadata "processing_timestamp" ts))),
   ("processing_timestamp", EntityValue.str ts)]

/-- The chunk loop of `insert_batch` (`storage.py` lines 341-376): rows are
processed in `BATCH_SIZE = 100` slices, the uuid supply (`ids`, indexing the
successive `uuid.uuid4()` results) consumed sequentially across chunks. -/
def insertChunksGo (dumps : List (String × String) → String) (now : String)
    (ids : Nat → String) :
    Nat → List (List PreparedRow) → List (List (String × EntityValue))
  | _, [] => []
  | k, chunk :: rest =>
    (chunk.enumFrom k).map (fun p => entityOf dumps now (ids p.1) p.2) ++
      insertChunksGo dumps now ids (k + chunk.length) rest

/-- All entity rows sent by `MilvusStorage.insert_batch` for `records`, in
order. -/
def insert_batch_entities (dumps : List (String × String) → String) (now : String)
    (ids : Nat → String) (records : List PreparedRow) :
    List (List (String × EntityValue)) :=
  insertChunksGo dumps now ids 0 (chunksOf 100 records)

/-! ## Questionnaire generation (`questionnaire_generator.py`) -/

/-- The text a unit contributes to the consolidation of its page
(`questionnaire_generator.py` lines 253-257):
`item.get("text_content") or item.get("enhanced_text") or item.get("text")`
with Python falsy-string semantics. -/
def chosenText (u : EnhancedUnit) : String :=
  if u.text_content.getD "" ≠ "" then u.text_content.getD ""
  else if u.enhanced_text ≠ "" then u.enhanced_text
  else u.text

/-- The grouping loop of `generate_and_print_questionnaires`
(`questionnaire_generator.py` lines 239-248): a Python dict keyed by
`(source_file, str(page_id))`, insertion-ordered, each group accumulating
its items in order. -/
def groupByKey (items : List EnhancedUnit) :
    List ((String × String) × List EnhancedUnit) :=
  items.foldl (fun acc it =>
    let k := (it.source_file, toString it.page_id)
    if acc.any (fun g => g.1 = k) then
      acc.map (fun g => if g.1 = k then (g.1, g.2 ++ [it]) else g)
    else acc ++ [(k, [it])]) []

/-- The consolidated page text (`questionnaire_generator.py` lines 253-257):
the blank-line join of the texts of the contributing units. -/
def consolidatedOf (g : List EnhancedUnit) : String :=
  joinSep "\n\n" ((g.filter (fun u => chosenText u ≠ "")).map chosenText)

/-- The consolidated item handed to `generate_questionnaire_for_content` for
one page group (`questionnaire_generator.py` lines 263-272).  Enhanced-unit
dicts carry their type under `"type"`, not `"content_type"`, so
`page_items[0].get("content_type", "generic")` always yields `"generic"`. -/
structure ConsolidatedCall where
  text_content : String
  source_file : String
  page_id : String
  content_type : String
deriving DecidableEq

/-- The per-group generation decision (`questionnaire_generator.py` lines
251-272): groups whose consolidated text is blank are skipped (logged);
every other group produces exactly one generator call. -/
def groupCall (g : (String × String) × List EnhancedUnit) : Option ConsolidatedCall :=
  if pyStrip (consolidatedOf g.2) = "" then none
  else some {
    text_content := consolidatedOf g.2
    source_file := g.1.1
    page_id := g.1.2
    content_type := "generic" }

/-- The sequence of per-page generation calls
`generate_and_print_questionnaires` makes for `items`: one call per
non-blank group, in group order. -/
def generation_calls (items : List EnhancedUnit) : List ConsolidatedCall :=
  (groupByKey items).filterMap groupCall

/-! ## Document parsing dispatch and OCR items (`document_parser.py`)

The filesystem, PIL image opening, pytesseract OCR and the underlying PDF
backend are oracles; `re.split` inside the long-paragraph splitter is the
`sentSplit` oracle.  The effective method bodies are the last definitions in
the (duplicate-laden) class body: `_process_image_page` at lines 601-657 and
`_parse_image` at lines 684-732. -/

/-- The exceptions `DocumentParser.parse_document` can raise: the error
classes of `rag/utils/exceptions.py` whose constructors the parser calls
correctly (`FileProcessingError` and `ParserError` take one required
`message` argument), plus Python `TypeError`.  `UnsupportedFormatError`
requires two positional arguments, `file_path` and `format`
(`exceptions.py` lines 11-16), so the one-argument construction attempted
for an unsupported extension raises `TypeError` instead — the
`unsupportedFormat` constructor exists here only to state what the
unsupported-extension branch does **not** produce. -/
inductive ParseErr where
  | fileProcessing : String → ParseErr
  | unsupportedFormat : String → ParseErr
  | parserError : String → ParseErr
  | typeError : String → ParseErr
deriving DecidableEq

/-- The message of the `TypeError` raised when
`UnsupportedFormatError(f"Unsupported file format: ...")` is evaluated with
a single argument (Python quotes the parameter name; the quotes are elided
here). -/
def unsupportedCtorTypeError : String :=
  "UnsupportedFormatError.__init__ missing 1 required positional argument: format"

/-- Model of `pathlib.PurePath.suffix`: the extension of the final component including the
dot; empty when there is no dot, the name starts with the only dot, or the
name ends with it. -/
def pathSuffix (path : String) : String :=
  let name := (path.toList.reverse.takeWhile (fun c => c ≠ '/')).reverse
  if name.contains '.' then
    let after := name.reverse.takeWhile (fun c => c ≠ '.')
    let i := name.length - 1 - after.length
    if 0 < i ∧ i < name.length - 1 then String.mk (name.drop i) else ""
  else ""

/-- Model of `DocumentParser.parse_document` (`document_parser.py` lines 82-119):
missing file → `FileProcessingError`; dispatch on the lowercased suffix to
the PDF branch (`_parse_pdf`, lines 121-148, which wraps any underlying
failure in `ParserError("PDF parsing failed: ...")`) or the image branch
(`_parse_image`, whose outer `except` raises
`ParserError("Image parsing failed: ...")`).  For any other suffix, line
119 attempts `raise UnsupportedFormatError(f"Unsupported file format:
{file_ext}")` — but that constructor requires the two positional arguments
`file_path` and `format` (`exceptions.py` lines 11-16), so evaluating the
one-argument call raises `TypeError` before any `UnsupportedFormatError`
exists. -/
def parse_document (fsExists : String → Bool)
    (pdfBackend imageBackend : String → Except String (List ContentItem))
    (path : String) : Except ParseErr (List ContentItem) :=
  if fsExists path = false then
    Except.error (ParseErr.fileProcessing ("File not found: " ++ path))
  else if pyLower (pathSuffix path) = ".pdf" then
    match pdfBackend path with
    | Except.ok items => Except.ok items
    | Except.error e => Except.error (ParseErr.parserError ("PDF parsing failed: " ++ e))
  else if pyLower (pathSuffix path) ∈ [".png", ".jpg", ".jpeg", ".bmp", ".tiff"] then
    match imageBackend path with
    | Except.ok items => Except.ok items
    | Except.error e => Except.error (ParseErr.parserError ("Image parsing failed: " ++ e))
  else
    Except.error (ParseErr.typeError unsupportedCtorTypeError)

/-- Structural worker for `pySplitOn`; the fuel dominates the list length. -/
def splitOnAux (sep : List Char) : Nat → List Char → List Char → List (List Char)
  | _, acc, [] => [acc.reverse]
  | 0, acc, l => [acc.reverse ++ l]
  | fuel + 1, acc, c :: cs =>
    if listStarts sep (c :: cs) then
      acc.reverse :: splitOnAux sep fuel [] ((c :: cs).drop sep.length)
    else splitOnAux sep fuel (c :: acc) cs

/-- Python `s.split(sep)` for a non-empty separator: split on each
non-overlapping occurrence, keeping empty fields. -/
def pySplitOn (sep s : String) : List String :=
  if sep.toList.isEmpty then [s]
  else (splitOnAux sep.toList s.toList.length [] s.toList).map String.mk

/-- The current-block assembly inside `_split_ocr_text_into_blocks`
(`document_parser.py` lines 668-678): sentences are appended with `". "`
while the running block stays under 400 characters, longer runs are flushed
(stripped) and restarted. -/
def assembleBlocks (sentences : List String) : List String :=
  let r := sentences.foldl (fun (acc : List String × String) sentence =>
    if acc.2.length + sentence.length < 400 then (acc.1, acc.2 ++ sentence ++ ". ")
    else (if acc.2 ≠ "" then acc.1 ++ [pyStrip acc.2] else acc.1, sentence ++ ". "))
    ([], "")
  if r.2 ≠ "" then r.1 ++ [pyStrip r.2] else r.1

/-- Model of `DocumentParser._split_ocr_text_into_blocks` (`document_parser.py` lines
659-682): split on blank lines; paragraphs longer than 500 characters are
further split into sentence-assembled blocks via the `re.split` oracle
`sentSplit`. -/
def split_ocr_text_into_blocks (sentSplit : String → List String)
    (ocr_text : String) : List String :=
  (pySplitOn "\n\n" ocr_text).flatMap
    (fun paragraph =>
      if 500 < paragraph.length then assembleBlocks (sentSplit paragraph)
      else [paragraph])

/-- The OCR-block items emitted by the OCR branch shared by
`_process_image_page` (lines 640-653) and `_parse_image` (lines 710-723):
each non-blank block becomes a classified item with confidence 0.8,
`from_ocr = True` and `is_component = True`. -/
def ocrBlockItems (sentSplit : String → List String) (page : Nat)
    (source_file : String) (ocr_text : String) : List ContentItem :=
  (split_ocr_text_into_blocks sentSplit ocr_text).filterMap (fun block =>
    if pyStrip block ≠ "" then
      some { type := classify_content_type block, text := pyStrip block,
             page := page, source_file := source_file, confidence := 4 / 5,
             from_ocr := true, is_component := true }
    else none)

/-- Model of `DocumentParser._process_image_page` (`document_parser.py` lines
601-657, the effective definition): the page raster first (confidence 1.0,
`is_page_image`), then — when OCR is enabled, succeeds (failures are logged
and swallowed) and yields non-blank text — the classified OCR block
items. -/
def process_image_page (enableOCR : Bool) (ocrFn : String → Except String String)
    (sentSplit : String → List String) (imageData mimeType : String)
    (pageNum : Nat) (sourceFile : String) : List ContentItem :=
  { type := some "image", data := some imageData, mime_type := some mimeType,
    page := pageNum, source_file := sourceFile, confidence := 1,
    is_page_image := true } ::
  (if enableOCR then
    match ocrFn imageData with
    | Except.error _ => []
    | Except.ok ocr_text =>
      if pyStrip ocr_text ≠ "" then ocrBlockItems sentSplit pageNum sourceFile ocr_text
      else []
  else [])

/-- Model of `DocumentParser._parse_image` (`document_parser.py` lines 684-732, the
effective definition): open/convert the image (failures raise
`ParserError`, surfaced here as `Except.error`), emit the whole image
(page 1, confidence 1.0, `is_page_image`), then the same OCR branch. -/
def parse_image (enableOCR : Bool) (openImg ocrFn : String → Except String String)
    (sentSplit : String → List String) (image_path : String) :
    Except String (List ContentItem) :=
  match openImg image_path with
  | Except.error e => Except.error ("Image parsing failed: " ++ e)
  | Except.ok img_bytes =>
    Except.ok (
      { type := some "image", data := some img_bytes, mime_type := some "image/png",
        page := 1, source_file := image_path, confidence := 1,
        is_page_image := true } ::
      (if enableOCR then
        match ocrFn img_bytes with
        | Except.error _ => []
        | Except.ok text =>
          if pyStrip text ≠ "" then ocrBlockItems sentSplit 1 image_path text
          else []
      else []))

lemma allCloseZero_replicate_zero (n : Nat) :
    allCloseZero (List.replicate n (0 : ℚ)) = true := by
  simp only [allCloseZero, List.all_eq_true, decide_eq_true_eq]
  intro x hx
  rw [List.eq_of_mem_replicate hx]
  simp only [abs_zero]
  positivity

lemma validate_replicate_zero (md n : Nat) :
    validate_embedding md (some (List.replicate n (0 : ℚ))) = false := by
  by_cases h : n < md
  · simp [validate_embedding, h]
  · simp [validate_embedding, h, allCloseZero_replicate_zero]

lemma sumSq_nonneg (v : List ℚ) : 0 ≤ sumSq v := by
  induction v with
  | nil => simp [sumSq]
  | cons a t ih =>
    simp only [sumSq, List.map_cons, List.sum_cons] at ih ⊢
    exact add_nonneg (mul_self_nonneg a) ih

lemma sumSq_pos_of_mem {v : List ℚ} {x : ℚ} (hx : x ∈ v) (hx0 : x ≠ 0) :
    0 < sumSq v := by
  induction v with
  | nil => cases hx
  | cons a t ih =>
    simp only [sumSq, List.map_cons, List.sum_cons]
    rcases List.mem_cons.mp hx with h | h
    · subst h
      have h2 : 0 ≤ sumSq t := sumSq_nonneg t
      have h1 : 0 < x * x := mul_self_pos.mpr hx0
      simp only [sumSq] at h2
      linarith
    · have h1 := ih h
      simp only [sumSq] at h1
      have h2 : 0 ≤ a * a := mul_self_nonneg a
      linarith

lemma bincount_nonneg {md : Nat} {text : String} {q : ℚ}
    (hq : q ∈ bincountCharFeatures md text) : 0 ≤ q := by
  simp only [bincountCharFeatures] at hq
  have hq2 := List.take_subset _ _ hq
  obtain ⟨k, _, hk⟩ := List.mem_map.mp hq2
  rw [← hk]
  positivity

lemma bincount_length (md : Nat) (text : String) :
    (bincountCharFeatures md text).length = min 128 md := by
  simp only [bincountCharFeatures, List.length_take, List.length_map, List.length_range]
  omega

lemma mixCharFeatures_length (md : Nat) (text : String) (emb : List ℚ) :
    (mixCharFeatures md text emb).length = emb.length := by
  unfold mixCharFeatures
  by_cases h1 : 0 < text.length
  · simp only [h1, if_true]
    by_cases h2 : 0 < (bincountCharFeatures md text).length
    · simp only [h2, if_true, List.length_append, List.length_zipWith, List.length_drop]
      omega
    · simp [h2]
  · simp [h1]

lemma mixCharFeatures_exists_pos {md : Nat} {text : String} {emb : List ℚ}
    {j : Nat} {x : ℚ}
    (htext : 0 < text.length) (hj : emb[j]? = some x) (hx : 0 < x)
    (hjlt : j < min 128 md) :
    ∃ y ∈ mixCharFeatures md text emb, 0 < y := by
  have hlen : (bincountCharFeatures md text).length = min 128 md := bincount_length md text
  have hjcf : j < (bincountCharFeatures md text).length := by omega
  have hcfpos : 0 < (bincountCharFeatures md text).length := by omega
  have hc : (bincountCharFeatures md text)[j]? = some (bincountCharFeatures md text)[j] :=
    List.getElem?_eq_getElem hjcf
  have hcq : (0 : ℚ) ≤ (bincountCharFeatures md text)[j] :=
    bincount_nonneg (List.getElem_mem hjcf)
  have hz : (emb.zipWith (fun e c => (7 / 10) * e + (3 / 10) * c)
      (bincountCharFeatures md text))[j]? =
      some ((7 / 10) * x + (3 / 10) * (bincountCharFeatures md text)[j]) :=
    List.getElem?_zipWith_eq_some.mpr ⟨x, _, hj, hc, rfl⟩
  have hy : (0 : ℚ) < (7 / 10) * x + (3 / 10) * (bincountCharFeatures md text)[j] := by
    have ha : (0 : ℚ) < (7 / 10) * x := by positivity
    have hb : (0 : ℚ) ≤ (3 / 10) * (bincountCharFeatures md text)[j] := by positivity
    linarith
  refine ⟨(7 / 10 : ℚ) * x + (3 / 10) * (bincountCharFeatures md text)[j], ?_, hy⟩
  unfold mixCharFeatures
  rw [if_pos htext, if_pos hcfpos]
  obtain ⟨hlt, heq⟩ := List.getElem?_eq_some.mp hz
  exact List.mem_append_left _ (heq ▸ List.getElem_mem hlt)

lemma pyStrip_empty : pyStrip "" = "" := rfl

lemma length_pos_of_pyStrip {text : String} (h : pyStrip text ≠ "") :
    0 < text.length := by
  rcases text with ⟨data⟩
  cases data with
  | nil => exact absurd rfl h
  | cons a t => simp [String.length]

lemma extendHashVals_eq_double {hashVals : List ℚ} (h68 : hashVals.length = 68) :
    extendHashVals 768 hashVals = hashVals ++ hashVals := by
  unfold extendHashVals
  have h1 : hashVals.take 768 = hashVals := List.take_of_length_le (by omega)
  have h2 : hashVals.take (768 - hashVals.length) = hashVals :=
    List.take_of_length_le (by omega)
  rw [h1, if_pos (by omega), h2]

/-- C4: the claim says the hash-derived fallback embedding always passes
`validate_embedding` (non-null, at least `min_dimensions` entries, finite,
not all-zero).  The code contradicts this: with the default
`min_dimensions = 768`, the three digests supply only 68 values and the
"cycling" `extend` runs once, so the produced vector has 136 < 768 entries
and `validate_embedding` rejects it; for whitespace-only input the function
returns the all-zero vector, which is also rejected. -/
theorem C4_hash_fallback_fails_validation
    (sqrtFn : ℚ → ℚ) (hashVals : List ℚ) (text : String)
    (h68 : hashVals.length = 68)
    (hpos : ∃ x ∈ hashVals, 0 < x)
    (htext : pyStrip text ≠ "") :
    (create_hash_embedding sqrtFn 768 hashVals text).length = 136 ∧
    validate_embedding 768 (some (create_hash_embedding sqrtFn 768 hashVals text)) = false ∧
    validate_embedding 768 (some (create_hash_embedding sqrtFn 768 hashVals "")) = false := by
  have htl : 0 < text.length := length_pos_of_pyStrip htext
  obtain ⟨x, hxmem, hx⟩ := hpos
  obtain ⟨j, hjlt, hjx⟩ := List.getElem_of_mem hxmem
  have hj2 : (hashVals ++ hashVals)[j]? = some x := by
    rw [List.getElem?_append_left hjlt, List.getElem?_eq_getElem hjlt, hjx]
  have hjlt2 : j < min 128 768 := by omega
  obtain ⟨y, hymem, hy⟩ :=
    @mixCharFeatures_exists_pos 768 text (hashVals ++ hashVals) j x htl hj2 hx hjlt2
  have hsum : 0 < sumSq (mixCharFeatures 768 text (hashVals ++ hashVals)) :=
    sumSq_pos_of_mem hymem (ne_of_gt hy)
  have hext : extendHashVals 768 hashVals = hashVals ++ hashVals :=
    extendHashVals_eq_double h68
  have hmlen : (mixCharFeatures 768 text (hashVals ++ hashVals)).length = 136 := by
    rw [mixCharFeatures_length]
    simp [h68]
  have hmain : create_hash_embedding sqrtFn 768 hashVals text =
      (mixCharFeatures 768 text (hashVals ++ hashVals)).map
        (fun z => z / sqrtFn (sumSq (mixCharFeatures 768 text (hashVals ++ hashVals)))) := by
    unfold create_hash_embedding normalizeHash
    rw [if_neg htext, hext, if_pos hsum]
  have hlen : (create_hash_embedding sqrtFn 768 hashVals text).length = 136 := by
    rw [hmain, List.length_map, hmlen]
  refine ⟨hlen, ?_, ?_⟩
  · simp [validate_embedding, hlen]
  · have hempty : create_hash_embedding sqrtFn 768 hashVals "" =
        List.replicate 768 0 := by
      unfold create_hash_embedding
      rw [if_pos pyStrip_empty]
    rw [hempty, validate_replicate_zero]

/-- Witness for `C4_hash_fallback_fails_validation`: a concrete hash-value
list of the digest-given length 68 and the one-character text `"a"`. -/
theorem C4_hash_fallback_fails_validation_witness :
    (create_hash_embedding id 768 (List.replicate 68 (1 : ℚ)) "a").length = 136 ∧
    validate_embedding 768
      (some (create_hash_embedding id 768 (List.replicate 68 (1 : ℚ)) "a")) = false ∧
    validate_embedding 768
      (some (create_hash_embedding id 768 (List.replicate 68 (1 : ℚ)) "")) = false :=
  C4_hash_fallback_fails_validation id (List.replicate 68 1) "a"
    (by simp)
    ⟨1, List.mem_replicate.mpr ⟨by decide, rfl⟩, zero_lt_one⟩
    (by decide)

lemma chunksOfAux_join {α : Type _} {n : Nat} (hn : 0 < n) :
    ∀ (fuel : Nat) (l : List α), l.length ≤ fuel → (chunksOfAux n fuel l).flatten = l := by
  intro fuel
  induction fuel with
  | zero =>
    intro l hl
    have h0 : l = [] := List.eq_nil_of_length_eq_zero (by omega)
    subst h0
    rfl
  | succ f ih =>
    intro l hl
    cases l with
    | nil => rfl
    | cons x xs =>
      simp only [List.length_cons] at hl
      have hdl : ((x :: xs).drop n).length ≤ f := by
        simp only [List.length_drop, List.length_cons]
        omega
      simp only [chunksOfAux, List.flatten_cons]
      rw [ih ((x :: xs).drop n) hdl]
      exact List.take_append_drop n (x :: xs)

lemma chunksOf_join {α : Type _} {n : Nat} (hn : 0 < n) (l : List α) :
    (chunksOf n l).flatten = l := by
  unfold chunksOf
  rw [if_neg (by omega)]
  exact chunksOfAux_join hn l.length l (le_refl _)

lemma batch_generate_eq_map (sqrtFn : ℚ → ℚ) (svc : String → Except String (List ℚ))
    (md : Nat) (texts : List String) :
    batch_generate_embeddings sqrtFn svc md texts =
      texts.map (batch_slot sqrtFn svc md) := by
  unfold batch_generate_embeddings
  have h1 : (chunksOf 8 texts).flatMap (fun b => b.map (batch_slot sqrtFn svc md)) =
      ((chunksOf 8 texts).map (fun b => b.map (batch_slot sqrtFn svc md))).flatten := by
    simp [List.flatMap]
  rw [h1, ← List.map_flatten, chunksOf_join (by omega)]

lemma padded_embeddings_length (sqrtFn : ℚ → ℚ) (svc : String → Except String (List ℚ))
    (md : Nat) (contents : List String) (content_types : Option (List String)) :
    (padded_embeddings sqrtFn svc md contents content_types).length = contents.length := by
  unfold padded_embeddings
  simp only [batch_generate_eq_map, List.length_take, List.length_append,
    List.length_map, List.length_replicate, List.length_zip]
  omega

/-- C1: for inputs with no table marker (at most 3 pipes, no table keyword)
and no equation marker, the claim says `_classify_content_type` returns the
default `"text"`.  The code has no default return: such inputs fall through
every branch to `pass`, so the function returns `None` — as the concrete
marker-free input `"hello world"` shows.  The positive branches match the
claimed priority order. -/
theorem C1_classifier_default_is_none_not_text :
    classify_content_type "hello world" = none ∧
    classify_content_type "a | b | c | d | e" = some "table" ∧
    classify_content_type "x = 1" = some "equation" :=
  ⟨by decide, by decide, by decide⟩

/-- C2 (amended): `generate_embeddings` builds an order-preserving list of
exactly `len(texts)` vectors with zero-vectors in failed slots
(`padded_embeddings`), but returns it only after `filter_embeddings`, which
silently removes invalid vectors — all-zero placeholders included — so the
returned list can be shorter than the input. -/
theorem C2_generate_embeddings_is_filtered_padded_list
    (sqrtFn : ℚ → ℚ) (svc : String → Except String (List ℚ)) (md : Nat)
    (contents : List String) :
    (padded_embeddings sqrtFn svc md contents none).length = contents.length ∧
    generate_embeddings sqrtFn svc md contents none =
      filter_embeddings md (padded_embeddings sqrtFn svc md contents none) := by
  refine ⟨padded_embeddings_length sqrtFn svc md contents none, ?_⟩
  cases contents with
  | nil => rfl
  | cons c cs => rfl

/-- C2 counterexample: a single input whose embedding request fails yields
the empty result list — length 0, not `len(texts) = 1` — because the
zero-vector placeholder put in the failed slot is then dropped by
`filter_embeddings`. -/
theorem C2_counterexample_result_shrinks :
    generate_embeddings id (fun _ => Except.error "refused") 768 ["hi"] none = [] ∧
    (generate_embeddings id (fun _ => Except.error "refused") 768 ["hi"] none).length ≠
      (["hi"] : List String).length := by
  have h1 : generate_embeddings id (fun _ => Except.error "refused") 768 ["hi"] none =
      filter_embeddings 768 [List.replicate 768 (0 : ℚ)] := rfl
  have h2 : filter_embeddings 768 [List.replicate 768 (0 : ℚ)] = [] := by
    simp only [filter_embeddings, List.filter_cons, validate_replicate_zero,
      Bool.false_eq_true, if_false, List.filter_nil]
  rw [h1, h2]
  exact ⟨rfl, by decide⟩

lemma store_content_batch_ok (insertB : List PreparedRow → Except String (List String))
    (items : List EnhancedUnit) : store_content_batch insertB items = Except.ok () := by
  unfold store_content_batch
  cases (if (items.filterMap prepare_row).isEmpty then Except.ok []
         else insertB (items.filterMap prepare_row)) <;> rfl

/-- C3 (amended): a vector-store batch-insert failure is caught inside
`_store_content_batch`, logged, and not re-raised — the method returns
normally for every insert oracle, so a file-processing run reports the same
successful result whether or not the insert failed.  (The claim said the
failure is surfaced to the caller; the code swallows it.) -/
theorem C3_insert_failure_swallowed_run_succeeds
    (enhance : ContentItem → Except String (Option EnhancedUnit))
    (sqrtFn : ℚ → ℚ) (svc : String → Except String (List ℚ)) (md : Nat)
    (insertB : List PreparedRow → Except String (List String))
    (items : List EnhancedUnit) (raw : List ContentItem) :
    store_content_batch insertB items = Except.ok () ∧
    process_file_after_parse enhance sqrtFn svc md insertB raw =
      Except.ok (if raw.isEmpty then []
        else process_file_units enhance sqrtFn svc md raw) := by
  refine ⟨store_content_batch_ok insertB items, ?_⟩
  simp only [process_file_after_parse]
  by_cases h : raw.isEmpty
  · simp [h]
  · simp only [h, if_false, store_content_batch_ok]
    cases h2 : (process_file_units enhance sqrtFn svc md raw).isEmpty <;>
      simp [h2, store_content_batch_ok]

/-- C3 counterexample: with one successfully embedded unit (so the prepared
batch is non-empty and `insert_batch` is really invoked) and an insert
oracle that fails, `_store_content_batch` still returns success — the
failure is not surfaced, contradicting the claim. -/
theorem C3_counterexample_insert_failure_not_surfaced :
    store_content_batch (fun _ => Except.error "Batch insert failed")
      [{ embedding := some [1], text := "hello" }] = Except.ok () ∧
    (([{ embedding := some [1], text := "hello" }] : List EnhancedUnit).filterMap
      prepare_row).length = 1 :=
  ⟨rfl, rfl⟩

/-- C7: a unit whose embedding generation fails (the modal processing
succeeded but `_generate_embedding` produced nothing) is dropped from the
processed set, and every other unit of the same file — before and after it —
is still processed to completion. -/
theorem C7_embedding_failure_drops_unit_continues
    (enhance : ContentItem → Except String (Option EnhancedUnit))
    (sqrtFn : ℚ → ℚ) (svc : String → Except String (List ℚ)) (md : Nat)
    (pre post : List ContentItem) (x : ContentItem) (ex : EnhancedUnit)
    (henh : enhance x = Except.ok (some ex))
    (hemb : generate_embedding_proc sqrtFn svc md ex = none) :
    process_file_units enhance sqrtFn svc md (pre ++ x :: post) =
      process_file_units enhance sqrtFn svc md pre ++
        process_file_units enhance sqrtFn svc md post := by
  have hx : process_content_item enhance sqrtFn svc md x = none := by
    simp [process_content_item, henh, hemb]
  induction pre with
  | nil => simp [process_file_units, hx]
  | cons p ps ih =>
    simp only [List.cons_append, process_file_units]
    cases h : process_content_item enhance sqrtFn svc md p <;> simp [h, ih]

/-- Witness for `C7_embedding_failure_drops_unit_continues`: a three-unit
file where the embedding request of the middle unit fails. -/
theorem C7_embedding_failure_drops_unit_continues_witness :
    process_file_units (fun u => Except.ok (some { text := u.text })) id
      (fun t => if t = "fail" then Except.error "down" else Except.ok [1]) 1
      ([{ text := "intro" }] ++ { text := "fail" } :: [{ text := "outro" }]) =
    process_file_units (fun u => Except.ok (some { text := u.text })) id
      (fun t => if t = "fail" then Except.error "down" else Except.ok [1]) 1
      [{ text := "intro" }] ++
    process_file_units (fun u => Except.ok (some { text := u.text })) id
      (fun t => if t = "fail" then Except.error "down" else Except.ok [1]) 1
      [{ text := "outro" }] :=
  C7_embedding_failure_drops_unit_continues
    (fun u => Except.ok (some { text := u.text })) id
    (fun t => if t = "fail" then Except.error "down" else Except.ok [1]) 1
    [{ text := "intro" }] [{ text := "outro" }] { text := "fail" } { text := "fail" }
    rfl
    (by
      have h1 : generate_embedding_proc id
          (fun t => if t = "fail" then Except.error "down" else Except.ok [1]) 1
          { text := "fail" } =
          (match (filter_embeddings 1 [List.replicate 1 (0 : ℚ)]).head? with
           | some e => some e
           | none => none) := rfl
      rw [h1]
      simp only [filter_embeddings, List.filter_cons, validate_replicate_zero,
        Bool.false_eq_true, if_false, List.filter_nil, List.head?_nil])

/-- C5: with both a content-type allow-list and a source-file filter, the
claim says the built expression AND-combines the two restrictions.  The code
instead interpolates a Python conditional expression into the filter string,
producing the literal text `(X) if X else Y` — not an AND of the two
conditions (no `and`/`AND`/`&&` occurs in it).  Each filter alone is built
as specified (OR-combination over the type list, exact source match). -/
theorem C5_combined_filter_is_ternary_text_not_and :
    build_search_filter (some ["text"]) (some "a.pdf") =
      some ("(content_type == " ++ sq ++ "text" ++ sq ++ ") if content_type == " ++
        sq ++ "text" ++ sq ++ " else source_file == " ++ sq ++ "a.pdf" ++ sq) ∧
    strSub " if " ((build_search_filter (some ["text"]) (some "a.pdf")).getD "") = true ∧
    strSub " and " ((build_search_filter (some ["text"]) (some "a.pdf")).getD "") = false ∧
    strSub " AND " ((build_search_filter (some ["text"]) (some "a.pdf")).getD "") = false ∧
    strSub "&&" ((build_search_filter (some ["text"]) (some "a.pdf")).getD "") = false ∧
    build_search_filter (some ["table", "equation"]) none =
      some ("content_type == " ++ sq ++ "table" ++ sq ++ " OR content_type == " ++
        sq ++ "equation" ++ sq) ∧
    build_search_filter none (some "a.pdf") =
      some ("source_file == " ++ sq ++ "a.pdf" ++ sq) :=
  ⟨by decide, by decide, by decide, by decide, by decide, by decide, by decide⟩

lemma insertChunksGo_eq (dumps : List (String × String) → String) (now : String)
    (ids : Nat → String) :
    ∀ (k : Nat) (chunks : List (List PreparedRow)),
      insertChunksGo dumps now ids k chunks =
        (chunks.flatten.enumFrom k).map (fun p => entityOf dumps now (ids p.1) p.2) := by
  intro k chunks
  induction chunks generalizing k with
  | nil => rfl
  | cons c rest ih =>
    simp only [insertChunksGo, List.flatten_cons, List.enumFrom_append,
      List.map_append, ih]

lemma insert_batch_entities_eq (dumps : List (String × String) → String) (now : String)
    (ids : Nat → String) (records : List PreparedRow) :
    insert_batch_entities dumps now ids records =
      (records.enumFrom 0).map (fun p => entityOf dumps now (ids p.1) p.2) := by
  unfold insert_batch_entities
  rw [insertChunksGo_eq, chunksOf_join (by omega)]

/-- C6 (amended): every row inserted by `insert_batch` carries a freshly
generated id taken from the uuid supply (callers never provide one),
`text_content` truncated to the 65,535-character cap, and the fields
`id`, `embedding`, `text_content`, `source_file`, `page_id`, `metadata`,
`processing_timestamp` — but **not** `content_type`, whose line is commented
out of the entity dict; ids are pairwise distinct whenever the uuid supply
is injective. -/
theorem C6_insert_batch_row_shape
    (dumps : List (String × String) → String) (now : String)
    (ids : Nat → String) (records : List PreparedRow) :
    insert_batch_entities dumps now ids records =
      (records.enumFrom 0).map (fun p => entityOf dumps now (ids p.1) p.2) ∧
    (∀ (uuid : String) (r : PreparedRow),
      (entityOf dumps now uuid r).map Prod.fst =
        ["id", "embedding", "text_content", "source_file", "page_id",
         "metadata", "processing_timestamp"] ∧
      (entityOf dumps now uuid r).lookup "content_type" = none ∧
      (entityOf dumps now uuid r).lookup "id" = some (EntityValue.str uuid) ∧
      (entityOf dumps now uuid r).lookup "text_content" =
        some (EntityValue.str (pyTake r.text_content 65535))) ∧
    (Function.Injective ids →
      ((insert_batch_entities dumps now ids records).map
        (fun e => e.lookup "id")).Nodup) := by
  refine ⟨insert_batch_entities_eq dumps now ids records,
    fun uuid r => ⟨rfl, rfl, rfl, rfl⟩, fun hinj => ?_⟩
  have h1 : (insert_batch_entities dumps now ids records).map (fun e => e.lookup "id") =
      (records.enumFrom 0).map (fun p => some (EntityValue.str (ids p.1))) := by
    rw [insert_batch_entities_eq, List.map_map]
    rfl
  have h2 : (records.enumFrom 0).map (fun p => some (EntityValue.str (ids p.1))) =
      (List.range records.length).map (fun i => some (EntityValue.str (ids i))) := by
    apply List.ext_getElem?
    intro i
    simp only [List.getElem?_map, List.getElem?_enumFrom, List.getElem?_range]
    cases h : records[i]? with
    | none =>
      have hge : records.length ≤ i := by
        by_contra hlt
        exact absurd h (by simp [List.getElem?_eq_getElem (by omega : i < records.length)])
      have hr : (List.range records.length)[i]? = none :=
        List.getElem?_eq_none (by simpa using hge)
      rw [hr]
      rfl
    | some r =>
      have hlt : i < records.length := (List.getElem?_eq_some.mp h).1
      have hr : (List.range records.length)[i]? = some i := by
        rw [List.getElem?_eq_getElem (by simpa using hlt)]
        simp
      rw [hr]
      simp
  rw [h1, h2]
  apply List.Nodup.map _ (List.nodup_range records.length)
  intro a b hab
  apply hinj
  simpa using hab

/-- Witness for `C6_insert_batch_row_shape`: a single concrete record with
an injective uuid supply. -/
theorem C6_insert_batch_row_shape_witness :
    (insert_batch_entities (fun _ => "m") "t"
        (fun k => String.mk (List.replicate k (Char.ofNat 105)))
        [{ embedding := [1], text_content := "hello", content_type := "table",
           source_file := "f.pdf", page_id := "1", metadata := [],
           processing_timestamp := none }]).map (fun e => e.lookup "id") |>.Nodup :=
  (C6_insert_batch_row_shape (fun _ => "m") "t"
      (fun k => String.mk (List.replicate k (Char.ofNat 105)))
      [{ embedding := [1], text_content := "hello", content_type := "table",
         source_file := "f.pdf", page_id := "1", metadata := [],
         processing_timestamp := none }]).2.2
    (fun a b hab => by
      have h := congrArg (fun s => s.data.length) hab
      simpa using h)

/-- C6 counterexample: the input record carries `content_type = "table"`,
yet the entity dict built for it has no `content_type` key at all (the
claim says every inserted row carries that field). -/
theorem C6_counterexample_content_type_missing :
    ((insert_batch_entities (fun _ => "m") "t" (fun _ => "id-0")
        [{ embedding := [1], text_content := "hello", content_type := "table",
           source_file := "f.pdf", page_id := "1", metadata := [],
           processing_timestamp := none }]).headD []).lookup "content_type" = none ∧
    ((insert_batch_entities (fun _ => "m") "t" (fun _ => "id-0")
        [{ embedding := [1], text_content := "hello", content_type := "table",
           source_file := "f.pdf", page_id := "1", metadata := [],
           processing_timestamp := none }]).headD []).lookup "id" =
      some (EntityValue.str "id-0") ∧
    (insert_batch_entities (fun _ => "m") "t" (fun _ => "id-0")
        [{ embedding := [1], text_content := "hello", content_type := "table",
           source_file := "f.pdf", page_id := "1", metadata := [],
           processing_timestamp := none }]).length = 1 :=
  ⟨rfl, rfl, rfl⟩

lemma groupByKey_aux_nodup (items : List EnhancedUnit) :
    ∀ acc : List ((String × String) × List EnhancedUnit),
      (acc.map Prod.fst).Nodup →
      ((items.foldl (fun acc it =>
        let k := (it.source_file, toString it.page_id)
        if acc.any (fun g => g.1 = k) then
          acc.map (fun g => if g.1 = k then (g.1, g.2 ++ [it]) else g)
        else acc ++ [(k, [it])]) acc).map Prod.fst).Nodup := by
  induction items with
  | nil => intro acc h; simpa using h
  | cons it rest ih =>
    intro acc h
    simp only [List.foldl_cons]
    apply ih
    by_cases hk : (acc.any (fun g => decide (g.1 = (it.source_file, toString it.page_id)))) = true
    · rw [if_pos hk]
      have hkeys : (acc.map (fun g =>
          if g.1 = (it.source_file, toString it.page_id) then (g.1, g.2 ++ [it]) else g)).map
            Prod.fst = acc.map Prod.fst := by
        rw [List.map_map]
        apply List.map_congr_left
        intro g _
        by_cases hg : g.1 = (it.source_file, toString it.page_id) <;> simp [hg]
      rw [hkeys]
      exact h
    · rw [if_neg hk]
      rw [List.map_append]
      refine List.Nodup.append h (by simp) ?_
      intro a ha hb
      simp only [List.map_cons, List.map_nil, List.mem_singleton] at hb
      subst hb
      simp only [List.any_eq_true, decide_eq_true_eq] at hk
      obtain ⟨g, hg, hgeq⟩ := List.mem_map.mp ha
      exact hk ⟨g, hg, by rw [hgeq]⟩

lemma groupByKey_keys_nodup (items : List EnhancedUnit) :
    ((groupByKey items).map Prod.fst).Nodup := by
  unfold groupByKey
  exact groupByKey_aux_nodup items [] (by simp)

lemma groupCall_key {g : (String × String) × List EnhancedUnit}
    {c : ConsolidatedCall} (h : groupCall g = some c) :
    (c.source_file, c.page_id) = g.1 ∧ pyStrip (consolidatedOf g.2) ≠ "" := by
  unfold groupCall at h
  by_cases hb : pyStrip (consolidatedOf g.2) = ""
  · simp [hb] at h
  · rw [if_neg hb] at h
    obtain rfl := (Option.some.injEq _ _).mp h
    exact ⟨rfl, hb⟩

lemma calls_countP_eq (key : String × String) :
    ∀ gs : List ((String × String) × List EnhancedUnit),
      (gs.map Prod.fst).Nodup →
      (gs.filterMap groupCall).countP
          (fun c => decide ((c.source_file, c.page_id) = key)) =
        if ∃ g ∈ gs, g.1 = key ∧ pyStrip (consolidatedOf g.2) ≠ "" then 1 else 0 := by
  intro gs
  induction gs with
  | nil => intro _; simp
  | cons g rest ih =>
    intro hnd
    rw [List.map_cons] at hnd
    obtain ⟨hg, hrest⟩ := List.nodup_cons.mp hnd
    simp only [List.filterMap_cons]
    by_cases hb : pyStrip (consolidatedOf g.2) = ""
    · rw [show groupCall g = none from by simp [groupCall, hb], ih hrest]
      simp only [List.exists_mem_cons_iff, hb, ne_eq, not_true_eq_false, and_false,
        false_or]
    · rw [show groupCall g = some {
          text_content := consolidatedOf g.2
          source_file := g.1.1
          page_id := g.1.2
          content_type := "generic" } from by simp [groupCall, hb]]
      rw [List.countP_cons, ih hrest]
      by_cases hk : g.1 = key
      · have hrest0 : ¬ ∃ g' ∈ rest, g'.1 = key ∧ pyStrip (consolidatedOf g'.2) ≠ "" := by
          rintro ⟨g', hg', hk', _⟩
          apply hg
          have hgg : g'.1 = g.1 := by rw [hk', hk]
          exact hgg ▸ List.mem_map_of_mem Prod.fst hg'
        rw [if_neg hrest0]
        have hp : ((g.1.1, g.1.2) = key) := by rw [Prod.mk.eta]; exact hk
        have hex : ∃ g1 ∈ g :: rest, g1.1 = key ∧ pyStrip (consolidatedOf g1.2) ≠ "" :=
          ⟨g, List.mem_cons_self g rest, hk, hb⟩
        rw [decide_eq_true hp, if_pos hex]
        simp
      · have hp : ¬ ((g.1.1, g.1.2) = key) := by rw [Prod.mk.eta]; exact hk
        have hcons : (∃ g1 ∈ g :: rest, g1.1 = key ∧ pyStrip (consolidatedOf g1.2) ≠ "") ↔
            (∃ g1 ∈ rest, g1.1 = key ∧ pyStrip (consolidatedOf g1.2) ≠ "") := by
          simp only [List.exists_mem_cons_iff, hk, false_and, false_or]
        rw [decide_eq_false hp]
        simp only [Bool.false_eq_true, if_false, add_zero]
        exact if_congr hcons.symm rfl rfl

/-- C8: for every list of processed units and every `(source_file, page_id)`
key, the questionnaire generator makes exactly one per-page generation call
when the group of that key has non-blank consolidated text, and zero calls when
it does not (or the key has no group) — never one call per unit, as the
concrete three-unit example (two units on page "1", one on page "2",
exactly two calls with blank-line-joined texts) shows. -/
theorem C8_one_generation_call_per_nonblank_group
    (items : List EnhancedUnit) (key : String × String) :
    ((generation_calls items).countP
      (fun c => decide ((c.source_file, c.page_id) = key)) =
      if ∃ g ∈ groupByKey items, g.1 = key ∧ pyStrip (consolidatedOf g.2) ≠ ""
      then 1 else 0) ∧
    (generation_calls items).length ≤ (groupByKey items).length ∧
    generation_calls
      [{ text_content := some "alpha", source_file := "f.pdf", page_id := 1 },
       { text_content := some "beta", source_file := "f.pdf", page_id := 1 },
       { text_content := some "gamma", source_file := "f.pdf", page_id := 2 }] =
      [{ text_content := "alpha" ++ "\n\n" ++ "beta", source_file := "f.pdf",
         page_id := "1", content_type := "generic" },
       { text_content := "gamma", source_file := "f.pdf", page_id := "2",
         content_type := "generic" }] ∧
    generation_calls [{ source_file := "g.pdf", page_id := 1 }] = [] := by
  refine ⟨calls_countP_eq key (groupByKey items) (groupByKey_keys_nodup items),
    List.length_filterMap_le _ _, by decide, by decide⟩

/-- C9: `parse_document` raises `FileProcessingError` for a missing file
and wraps an underlying parse failure in `ParserError` for both the PDF and
the image branch — as claimed.  But for an existing file whose lowercased
suffix is not one of `.pdf`, `.png`, `.jpg`, `.jpeg`, `.bmp`, `.tiff`, the
claimed `UnsupportedFormatError` is never produced: the one-argument call
to its two-required-argument constructor (`exceptions.py` lines 11-16)
raises `TypeError` instead, on every unsupported-extension input. -/
theorem C9_parse_document_error_contract
    (fsExists : String → Bool)
    (pdfBackend imageBackend : String → Except String (List ContentItem))
    (path : String) :
    (fsExists path = false →
      parse_document fsExists pdfBackend imageBackend path =
        Except.error (ParseErr.fileProcessing ("File not found: " ++ path))) ∧
    (fsExists path = true →
      pyLower (pathSuffix path) ∉
        ([".pdf", ".png", ".jpg", ".jpeg", ".bmp", ".tiff"] : List String) →
      parse_document fsExists pdfBackend imageBackend path =
        Except.error (ParseErr.typeError unsupportedCtorTypeError) ∧
      ∀ m, parse_document fsExists pdfBackend imageBackend path ≠
        Except.error (ParseErr.unsupportedFormat m)) ∧
    (∀ e, fsExists path = true → pyLower (pathSuffix path) = ".pdf" →
      pdfBackend path = Except.error e →
      parse_document fsExists pdfBackend imageBackend path =
        Except.error (ParseErr.parserError ("PDF parsing failed: " ++ e))) ∧
    (∀ e, fsExists path = true →
      pyLower (pathSuffix path) ∈
        ([".png", ".jpg", ".jpeg", ".bmp", ".tiff"] : List String) →
      imageBackend path = Except.error e →
      parse_document fsExists pdfBackend imageBackend path =
        Except.error (ParseErr.parserError ("Image parsing failed: " ++ e))) := by
  refine ⟨?_, ?_, ?_, ?_⟩
  · intro h
    simp [parse_document, h]
  · intro h1 h2
    have hne : ¬(pyLower (pathSuffix path) = ".pdf") := fun he => h2 (by rw [he]; simp)
    have himg : ¬(pyLower (pathSuffix path) ∈
        ([".png", ".jpg", ".jpeg", ".bmp", ".tiff"] : List String)) :=
      fun hm => h2 (List.mem_cons_of_mem _ hm)
    have hres : parse_document fsExists pdfBackend imageBackend path =
        Except.error (ParseErr.typeError unsupportedCtorTypeError) := by
      simp [parse_document, h1, hne, himg]
    refine ⟨hres, fun m hm => ?_⟩
    rw [hres] at hm
    simp at hm
  · intro e h1 h2 h3
    simp [parse_document, h1, h2, h3]
  · intro e h1 h2 h3
    have hne : ¬(pyLower (pathSuffix path) = ".pdf") := by
      intro he
      rw [he] at h2
      exact absurd h2 (by decide)
    simp [parse_document, h1, hne, h2, h3]

/-- Witness for `C9_parse_document_error_contract`: the four error paths at
concrete paths and oracles; `"notes.txt"` exists but has an unsupported
extension and yields the constructor `TypeError`. -/
theorem C9_parse_document_error_contract_witness :
    (parse_document (fun _ => false) (fun _ => Except.ok []) (fun _ => Except.ok [])
      "doc.pdf" =
      Except.error (ParseErr.fileProcessing ("File not found: " ++ "doc.pdf"))) ∧
    (parse_document (fun _ => true) (fun _ => Except.ok []) (fun _ => Except.ok [])
      "notes.txt" =
      Except.error (ParseErr.typeError unsupportedCtorTypeError) ∧
     ∀ m, parse_document (fun _ => true) (fun _ => Except.ok []) (fun _ => Except.ok [])
        "notes.txt" ≠ Except.error (ParseErr.unsupportedFormat m)) ∧
    (parse_document (fun _ => true) (fun _ => Except.error "boom") (fun _ => Except.ok [])
      "slides.PDF" =
      Except.error (ParseErr.parserError ("PDF parsing failed: " ++ "boom"))) ∧
    (parse_document (fun _ => true) (fun _ => Except.ok []) (fun _ => Except.error "bad")
      "scan.JPG" =
      Except.error (ParseErr.parserError ("Image parsing failed: " ++ "bad"))) :=
  ⟨(C9_parse_document_error_contract (fun _ => false) (fun _ => Except.ok [])
      (fun _ => Except.ok []) "doc.pdf").1 rfl,
   (C9_parse_document_error_contract (fun _ => true) (fun _ => Except.ok [])
      (fun _ => Except.ok []) "notes.txt").2.1 rfl (by decide),
   (C9_parse_document_error_contract (fun _ => true) (fun _ => Except.error "boom")
      (fun _ => Except.ok []) "slides.PDF").2.2.1 "boom" rfl (by decide) rfl,
   (C9_parse_document_error_contract (fun _ => true) (fun _ => Except.ok [])
      (fun _ => Except.error "bad") "scan.JPG").2.2.2 "bad" rfl (by decide) rfl⟩

lemma ocrBlockItems_facts (sentSplit : String → List String) (page : Nat)
    (sf txt : String) :
    ∀ u ∈ ocrBlockItems sentSplit page sf txt,
      u.from_ocr = true ∧ u.confidence = 4 / 5 := by
  intro u hu
  obtain ⟨block, _, heq⟩ := List.mem_filterMap.mp hu
  by_cases hbl : pyStrip block ≠ ""
  · rw [if_pos hbl] at heq
    obtain rfl := Option.some.inj heq
    exact ⟨rfl, rfl⟩
  · rw [if_neg hbl] at heq
    cases heq

lemma ocr_branch_facts (enableOCR : Bool) (ocrFn : String → Except String String)
    (sentSplit : String → List String) (dataArg : String) (page : Nat) (sf : String) :
    ∀ u ∈ (if enableOCR then
        match ocrFn dataArg with
        | Except.error _ => []
        | Except.ok t =>
          if pyStrip t ≠ "" then ocrBlockItems sentSplit page sf t else []
      else []),
      u.from_ocr = true ∧ u.confidence < 1 := by
  intro u hu
  have h45 : (4 / 5 : ℚ) < 1 := by norm_num
  by_cases he : enableOCR
  · rw [if_pos he] at hu
    split at hu
    · exact absurd hu (List.not_mem_nil u)
    · split at hu
      · obtain ⟨h1, h2⟩ := ocrBlockItems_facts _ _ _ _ u hu
        exact ⟨h1, h2 ▸ h45⟩
      · exact absurd hu (List.not_mem_nil u)
  · rw [if_neg he] at hu
    exact absurd hu (List.not_mem_nil u)

/-- C10: every OCR-derived unit — every item after the leading page-image
item in `_process_image_page` or `_parse_image` output — carries
`from_ocr = true` and confidence 0.8 < 1.0; equivalently, any emitted unit
flagged `from_ocr` has confidence below 1. -/
theorem C10_ocr_units_flagged_and_below_full_confidence
    (enableOCR : Bool) (ocrFn openImg : String → Except String String)
    (sentSplit : String → List String) (imageData mimeType : String)
    (pageNum : Nat) (sourceFile image_path : String) :
    (∀ u ∈ (process_image_page enableOCR ocrFn sentSplit imageData mimeType
        pageNum sourceFile).drop 1,
      u.from_ocr = true ∧ u.confidence < 1) ∧
    (∀ u ∈ process_image_page enableOCR ocrFn sentSplit imageData mimeType
        pageNum sourceFile,
      u.from_ocr = true → u.confidence < 1) ∧
    (∀ items, parse_image enableOCR openImg ocrFn sentSplit image_path =
        Except.ok items →
      ∀ u ∈ items.drop 1, u.from_ocr = true ∧ u.confidence < 1) := by
  refine ⟨?_, ?_, ?_⟩
  · intro u hu
    exact ocr_branch_facts enableOCR ocrFn sentSplit imageData pageNum sourceFile u hu
  · intro u hu
    rcases List.mem_cons.mp hu with rfl | h
    · intro habs
      simp at habs
    · intro _
      exact (ocr_branch_facts enableOCR ocrFn sentSplit imageData pageNum sourceFile u h).2
  · intro items hitem u hu
    cases ho : openImg image_path with
    | error e =>
      rw [parse_image, ho] at hitem
      cases hitem
    | ok bytes =>
      rw [parse_image, ho] at hitem
      obtain rfl := Except.ok.inj hitem
      exact ocr_branch_facts enableOCR ocrFn sentSplit bytes 1 image_path u hu

/-- Witness for `C10_ocr_units_flagged_and_below_full_confidence`: OCR
enabled, a successful OCR run producing one text block. -/
theorem C10_ocr_units_flagged_witness :
    ({ type := none, text := "hello world", page := 3, source_file := "f.pdf",
       confidence := 4 / 5, from_ocr := true, is_component := true } :
        ContentItem).from_ocr = true ∧
    ({ type := none, text := "hello world", page := 3, source_file := "f.pdf",
       confidence := 4 / 5, from_ocr := true, is_component := true } :
        ContentItem).confidence < 1 :=
  (C10_ocr_units_flagged_and_below_full_confidence true
      (fun _ => Except.ok "hello world") (fun _ => Except.ok "IMG")
      (fun p => [p]) "IMG" "image/png" 3 "f.pdf" "f.png").1
    { type := none, text := "hello world", page := 3, source_file := "f.pdf",
      confidence := 4 / 5, from_ocr := true, is_component := true }
    (List.mem_singleton.mpr rfl)

end VoiceAgent
